import Mathlib

/-
Shallow embedding of the case100 virtual machine core (src/src/core.rs,
src/src/devices.rs, src/src/devices/vga.rs, src/src/devices/onboard.rs).

Machine integers: i32 words are modelled as Int together with explicit
wrap/saturate helpers mirroring the Rust operations used by the source
(wrapping_add, wrapping_sub, saturating_mul, wrapping_div, bitwise ops,
shifts).  usize is modelled as Nat; the Rust cast `i32 as usize` on a
64-bit target sign-extends, modelled by reduction modulo 2^64.

Rust panics (debug-profile arithmetic overflow on the unguarded shifts at
core.rs:123-124 and the unguarded add at core.rs:163, and the
out-of-bounds index in Environment::parse at core.rs:53) are modelled by
Option: a `none` result is a panic, `some` is a normal return.

Devices: the DeviceFrame trait object is modelled as a record of pure
register/set/get components.  The step-level claims proved here observe
only the routing and the returned values of a single call, not
device-internal state evolution across calls, so the `&mut self` of the
trait methods is not threaded; the stateful VGA device is embedded
separately with its state explicit (vga.rs).
-/

namespace Case100

/-- Size of local memory in words (core.rs line 17). -/
def MEMORY_SIZE : Nat := 16384

/-- Two's-complement wrap of an integer into the i32 range. -/
def wrap32 (n : Int) : Int := (n + 2 ^ 31) % 2 ^ 32 - 2 ^ 31

/-- Unsigned 32-bit view of an i32 value (its two's-complement bit pattern). -/
def toU32 (n : Int) : Nat := (n % 2 ^ 32).toNat

/-- Signed reading of an unsigned 32-bit pattern. -/
def ofU32 (u : Nat) : Int := if u < 2 ^ 31 then (u : Int) else (u : Int) - 2 ^ 32

/-- Rust cast `i32 as usize` on a 64-bit target: sign-extend and
reinterpret, i.e. reduce modulo 2^64. -/
def asUsize (n : Int) : Nat := (n % 2 ^ 64).toNat

/-- Rust `i32::wrapping_add` (core.rs line 111). -/
def wrapping_add (a b : Int) : Int := wrap32 (a + b)

/-- Rust `i32::wrapping_sub` (core.rs line 112). -/
def wrapping_sub (a b : Int) : Int := wrap32 (a - b)

/-- Rust `i32::saturating_mul` (core.rs line 113). -/
def saturating_mul (a b : Int) : Int := max (-(2 ^ 31)) (min (2 ^ 31 - 1) (a * b))

/-- Rust `i32::wrapping_div` (core.rs line 118): truncating division,
wrapping the single overflow case MIN / -1. -/
def wrapping_div (a b : Int) : Int := wrap32 (a.tdiv b)

/-- Rust `&` on i32 (core.rs line 121). -/
def i32And (a b : Int) : Int := ofU32 ((toU32 a).land (toU32 b))

/-- Rust `|` on i32 (core.rs line 122). -/
def i32Or (a b : Int) : Int := ofU32 ((toU32 a).lor (toU32 b))

/-- Rust `!` on i32 (core.rs line 145): bitwise complement, which on
two's-complement integers is negation minus one. -/
def i32Not (a : Int) : Int := -a - 1

/-- Rust `<<` on i32 (core.rs line 123): the shift amount is checked
(debug-profile overflow panic when negative or at least 32, modelled as
none); bits shifted out of the top are discarded. -/
def shlChecked (a s : Int) : Option Int :=
  if 0 ≤ s ∧ s < 32 then some (wrap32 (a * 2 ^ s.toNat)) else none

/-- Rust `>>` on i32 (core.rs line 124): checked shift amount as for shl;
the shift itself is arithmetic (sign-preserving), i.e. floor division by a
power of two. -/
def shrChecked (a s : Int) : Option Int :=
  if 0 ≤ s ∧ s < 32 then some (a.fdiv (2 ^ s.toNat)) else none

/-- Rust `+` on i32 (core.rs line 163): debug-profile overflow panic,
modelled as none outside the i32 range. -/
def addChecked (a b : Int) : Option Int :=
  if -(2 ^ 31) ≤ a + b ∧ a + b < 2 ^ 31 then some (a + b) else none

/-- Pointwise update of a memory function (the assignment
`environment.memory[addr] = value` of core.rs line 280). -/
def writeMem (m : Nat → Int) (addr : Nat) (value : Int) : Nat → Int :=
  fun i => if i = addr then value else m i

/-- DeviceError (devices.rs lines 46-52). -/
inductive DeviceError
  | Busy
  | Dead
  | Unreadable
  | Unwritable
deriving DecidableEq

/-- DeviceFrame trait (devices.rs lines 54-58), as a record of pure
components; see the header comment on statefulness. -/
structure DeviceFrame where
  registers : List Nat
  set : Nat → Int → Except DeviceError Bool
  get : Nat → Except DeviceError Int

/-- Stand-in value for the out-of-bounds vector index `self.devices[*idx]`
(devices.rs lines 35 and 42), unreachable for arrays built by
register_device. -/
def deadDevice : DeviceFrame :=
  ⟨[], fun _ _ => .error .Dead, fun _ => .error .Dead⟩

/-- DeviceArray (devices.rs lines 7-11): the HashMap from claimed register
to device index is modelled as a function to Option Nat. -/
structure DeviceArray where
  devices : List DeviceFrame
  registers : Nat → Option Nat

/-- The Default DeviceArray: no devices, empty register map. -/
def DeviceArray.empty : DeviceArray := ⟨[], fun _ => none⟩

/-- DeviceArray::register_device (devices.rs lines 14-21): extend the
register map with every register the device claims, mapping it to the new
device's index (HashMap::extend overwrites existing keys), then push the
device. -/
def DeviceArray.register_device (da : DeviceArray) (device : DeviceFrame) :
    DeviceArray :=
  let idx := da.devices.length
  { devices := da.devices ++ [device]
    registers := fun reg =>
      if reg ∈ device.registers then some idx else da.registers reg }

/-- DeviceArray::set (devices.rs lines 23-36): mask the register to 32
bits, look it up, and dispatch to the indexed device. -/
def DeviceArray.set (da : DeviceArray) (register : Nat) (value : Int) :
    Option (Except DeviceError Bool) :=
  let register := register % 2 ^ 32
  (da.registers register).map fun idx =>
    (da.devices.getD idx deadDevice).set register value

/-- DeviceArray::get (devices.rs lines 38-43): look the register up
unmasked and dispatch to the indexed device. -/
def DeviceArray.get (da : DeviceArray) (register : Nat) :
    Option (Except DeviceError Int) :=
  (da.registers register).map fun idx =>
    (da.devices.getD idx deadDevice).get register

/-- StepFatal (core.rs lines 6-15). -/
inductive StepFatal
  | Halted
  | AlreadyPoisoned
  | InvalidInstruction (instr : Int)
  | InvalidIAR (iar : Nat)
  | InvalidIndex (index : Nat)
  | DeviceFailure (error : DeviceError)
  | DivisionByZero
deriving DecidableEq

/-- StepReport (core.rs lines 19-22): the report of a successful step
holds only the optionally-changed address.  (It has no redraw field.) -/
structure StepReport where
  changed : Option Nat
deriving DecidableEq

/-- Environment (core.rs lines 24-29).  The 16384-word array is modelled
as a function; only indices below MEMORY_SIZE are ever read or written by
the embedded code. -/
structure Environment where
  iar : Nat
  memory : Nat → Int
  poison : Bool

/-- get_mem (core.rs lines 259-269). -/
def get_mem (addr : Nat) (environment : Environment)
    (device_array : DeviceArray) : Option (Except DeviceError Int) :=
  if MEMORY_SIZE ≤ addr then device_array.get addr
  else some (.ok (environment.memory addr))

/-- set_mem (core.rs lines 271-283): the device's redraw verdict is
discarded, matching set_mem's `Result<(), DeviceError>` signature. -/
def set_mem (addr : Nat) (value : Int) (environment : Environment)
    (device_array : DeviceArray) :
    Option (Except DeviceError Unit) × Environment :=
  if MEMORY_SIZE ≤ addr then
    ((device_array.set addr value).map fun r => r.map fun _ => (),
      environment)
  else
    (some (.ok ()),
      { environment with memory := writeMem environment.memory addr value })

/-- The repeated idiom `get_mem(..).ok_or(InvalidIndex)?.map_err(DeviceFailure)?`
of step (e.g. core.rs lines 99-103). -/
def getArg (addr : Nat) (environment : Environment)
    (device_array : DeviceArray) : Except StepFatal Int :=
  match get_mem addr environment device_array with
  | none => .error (.InvalidIndex addr)
  | some (.error e) => .error (.DeviceFailure e)
  | some (.ok v) => .ok v

/-- The repeated idiom `set_mem(..).ok_or(InvalidIndex)?.map_err(DeviceFailure)?`
of step (e.g. core.rs lines 128-132), returning the updated environment. -/
def setArg (addr : Nat) (value : Int) (environment : Environment)
    (device_array : DeviceArray) : Except StepFatal Environment :=
  match set_mem addr value environment device_array with
  | (none, _) => .error (.InvalidIndex addr)
  | (some (.error e), _) => .error (.DeviceFailure e)
  | (some (.ok _), env) => .ok env

/-- The binary-operation value computation of step (core.rs lines
110-126), for an opcode already known to lie in {1,2,3,4,6,7,9,10}: a
none result is the panic of an unguarded shift, an error is the
division-by-zero fatal. -/
def binOpVal (instruction arg2v arg3v : Int) : Option (Except StepFatal Int) :=
  if instruction = 1 then some (.ok (wrapping_add arg2v arg3v))
  else if instruction = 2 then some (.ok (wrapping_sub arg2v arg3v))
  else if instruction = 3 then some (.ok (saturating_mul arg2v arg3v))
  else if instruction = 4 then
    if arg3v = 0 then some (.error .DivisionByZero)
    else some (.ok (wrapping_div arg2v arg3v))
  else if instruction = 6 then some (.ok (i32And arg2v arg3v))
  else if instruction = 7 then some (.ok (i32Or arg2v arg3v))
  else if instruction = 9 then (shlChecked arg2v arg3v).map .ok
  else (shrChecked arg2v arg3v).map .ok

/-- step (core.rs lines 60-257).  A `none` result is a Rust panic; the
shared tail (iar advance on fall-through, poison clear) is inlined into
each arm's exit. -/
def step (env0 : Environment) (device_array : DeviceArray) :
    Option (Except StepFatal StepReport × Environment) :=
  -- if already poisoned, we mustn't do anything here (lines 67-69)
  if env0.poison then some (.error .AlreadyPoisoned, env0) else
  -- set poison; cleared again only on the clean exits (line 72)
  let env : Environment := { env0 with poison := true }
  if MEMORY_SIZE - 4 ≤ env.iar then
    some (.error (.InvalidIAR env.iar), env)
  else
  let instruction := env.memory env.iar
  let arg1 := env.memory (env.iar + 1)
  let arg2 := env.memory (env.iar + 2)
  let arg3 := env.memory (env.iar + 3)
  -- binaries (lines 97-133)
  if instruction = 1 ∨ instruction = 2 ∨ instruction = 3 ∨ instruction = 4 ∨
      instruction = 6 ∨ instruction = 7 ∨ instruction = 9 ∨
      instruction = 10 then
    match getArg (asUsize arg2) env device_array with
    | .error f => some (.error f, env)
    | .ok arg2v =>
    match getArg (asUsize arg3) env device_array with
    | .error f => some (.error f, env)
    | .ok arg3v =>
    match binOpVal instruction arg2v arg3v with
    | none => none
    | some (.error f) => some (.error f, env)
    | some (.ok v) =>
    match setArg (asUsize arg1) v env device_array with
    | .error f => some (.error f, env)
    | .ok env1 =>
      some (.ok ⟨some (asUsize arg1)⟩,
        { env1 with iar := env1.iar + 4, poison := false })
  -- unaries (lines 135-154)
  else if instruction = 5 ∨ instruction = 8 then
    match getArg (asUsize arg2) env device_array with
    | .error f => some (.error f, env)
    | .ok arg2v =>
    let v := if instruction = 5 then arg2v else i32Not arg2v
    match setArg (asUsize arg1) v env device_array with
    | .error f => some (.error f, env)
    | .ok env1 =>
      some (.ok ⟨some (asUsize arg1)⟩,
        { env1 with iar := env1.iar + 4, poison := false })
  -- array (lines 156-196)
  else if instruction = 11 ∨ instruction = 12 then
    match getArg (asUsize arg3) env device_array with
    | .error f => some (.error f, env)
    | .ok arg3v =>
    match addChecked arg2 arg3v with
    | none => none
    | some index =>
    if instruction = 11 then
      match getArg (asUsize index) env device_array with
      | .error f => some (.error f, env)
      | .ok indexv =>
      match setArg (asUsize arg1) indexv env device_array with
      | .error f => some (.error f, env)
      | .ok env1 =>
        some (.ok ⟨some (asUsize arg1)⟩,
          { env1 with iar := env1.iar + 4, poison := false })
    else
      match getArg (asUsize arg1) env device_array with
      | .error f => some (.error f, env)
      | .ok arg1v =>
      match setArg (asUsize index) arg1v env device_array with
      | .error f => some (.error f, env)
      | .ok env1 =>
        some (.ok ⟨some (asUsize index)⟩,
          { env1 with iar := env1.iar + 4, poison := false })
  -- branches (lines 198-219)
  else if instruction = 13 ∨ instruction = 14 ∨ instruction = 15 then
    match getArg (asUsize arg2) env device_array with
    | .error f => some (.error f, env)
    | .ok arg2v =>
    match getArg (asUsize arg3) env device_array with
    | .error f => some (.error f, env)
    | .ok arg3v =>
    if (if instruction = 13 then arg2v = arg3v
        else if instruction = 14 then arg2v ≠ arg3v
        else arg2v < arg3v) then
      some (.ok ⟨none⟩, { env with iar := asUsize arg1, poison := false })
    else
      some (.ok ⟨none⟩, { env with iar := env.iar + 4, poison := false })
  -- call (lines 221-235)
  else if instruction = 16 then
    match setArg (asUsize arg2) ((env.iar + 4 : Nat) : Int) env device_array with
    | .error f => some (.error f, env)
    | .ok env1 =>
      some (.ok ⟨none⟩, { env1 with iar := asUsize arg1, poison := false })
  -- ret (lines 237-246)
  else if instruction = 17 then
    match getArg (asUsize arg1) env device_array with
    | .error f => some (.error f, env)
    | .ok arg1v =>
      some (.ok ⟨none⟩, { env with iar := asUsize arg1v, poison := false })
  -- fall-through (line 247)
  else
    some (.error (.InvalidInstruction instruction), env)

/-- The memory-filling loop of Environment::parse (core.rs lines 48-54),
over the list of regex captures.  The regex layer itself is abstracted:
each element of the list is the result of `parse::<i32>` on one captured
group of the pattern (none when the captured text overflows i32, which
`val?` propagates as an Err).  Rust evaluates the right-hand side `val?`
of the assignment before the bounds check of `env.memory[index]`, so a
failed value parse produces the error even past the end; a successful
value at an index at or past 16384 hits the out-of-bounds panic, modelled
as none. -/
def parseWords : Nat → List (Option Int) → (Nat → Int) →
    Option (Except Unit (Nat → Int))
  | _, [], mem => some (.ok mem)
  | index, val :: rest, mem =>
    match val with
    | none => some (.error ())
    | some v =>
      if index < MEMORY_SIZE then parseWords (index + 1) rest (writeMem mem index v)
      else none

/-- Environment::parse (core.rs lines 42-57): fill a default environment
by sequential capture index.  A none result is the out-of-bounds panic, a
some (.error _) is the Err return of a failed integer parse. -/
def Environment.parse (captures : List (Option Int)) :
    Option (Except Unit Environment) :=
  (parseWords 0 captures (fun _ => 0)).map (Except.map fun m => ⟨0, m, false⟩)

/-- SdlDrawCommand (sdlcore.rs lines 50-57). -/
structure SdlDrawCommand where
  x1 : Int
  y1 : Int
  x2 : Int
  y2 : Int
  colour : Int
deriving DecidableEq

/-- VgaDevice state (vga.rs lines 5-14); the draw-command channel sender
is modelled by the channelOk argument of set below. -/
structure VgaDevice where
  turn : Bool
  write_mode : Bool
  x1 : Int
  x2 : Int
  y1 : Int
  y2 : Int
  colour : Int
deriving DecidableEq

/-- VgaDevice::new (vga.rs lines 16-31). -/
def VgaDevice.new : VgaDevice :=
  { turn := false, write_mode := true, x1 := 0, x2 := 0, y1 := 0, y2 := 0
    colour := 0 }

/-- The registers the VGA device claims (vga.rs lines 34-39). -/
def VgaDevice.claimed : List Nat :=
  [0x80000060, 0x80000061, 0x80000062, 0x80000063, 0x80000064, 0x80000065,
    0x80000066]

/-- VgaDevice::set (vga.rs lines 41-94).  channelOk models whether
try_send on the bounded draw-command channel succeeds; on success the
emitted command is returned alongside the new state and the redraw
verdict (always false, line 93).  The final arm stands for the
unreachable panic of vga.rs line 90, never hit through routing. -/
def VgaDevice.set (s : VgaDevice) (channelOk : Bool) (register : Nat)
    (value : Int) :
    Except DeviceError (Bool × VgaDevice × Option SdlDrawCommand) :=
  if s.turn then .error .Busy
  else if register = 0x80000060 then
    if value = 0 then .error .Unwritable
    else if s.write_mode then
      if channelOk then .ok (false, s, some ⟨s.x1, s.y1, s.x2, s.y2, s.colour⟩)
      else .error .Dead
    else .error .Dead
  else if register = 0x80000061 then
    .ok (false, { s with write_mode := decide (0 < value) }, none)
  else if register = 0x80000062 then
    .ok (false, { s with x1 := i32And value 0x3ff }, none)
  else if register = 0x80000063 then
    .ok (false, { s with y1 := i32And value 0x1ff }, none)
  else if register = 0x80000064 then
    .ok (false, { s with x2 := i32And value 0x3ff }, none)
  else if register = 0x80000065 then
    .ok (false, { s with y2 := i32And value 0x1ff }, none)
  else if register = 0x80000066 then
    .ok (false, { s with colour := i32And value 0xffffff }, none)
  else .error .Dead

/-- VgaDevice::get (vga.rs lines 96-101). -/
def VgaDevice.getReg (s : VgaDevice) (register : Nat) :
    Except DeviceError Int :=
  if register = 0x80000060 then .ok (if s.turn then 1 else 0)
  else .error .Unreadable

/-- The HexDisplayDevice of onboard.rs (lines 18-40) as a stateless
DeviceFrame: a write stores the low 16 bits into an atomic for the UI and
returns Ok(true) (redraw), a read is Unreadable.  The atomic cells are
invisible to the bus interface and are not modelled. -/
def hexDisplayFrame : DeviceFrame :=
  { registers := [0x80000003, 0x80000004]
    set := fun _ _ => .ok true
    get := fun _ => .error .Unreadable }

/-! Concrete machines and buses used by the closed theorems below. -/

/-- All-zero memory, iar 0, not poisoned: the halt-at-zero machine of the
spec's first end-to-end scenario. -/
def envHalt : Environment := ⟨0, fun _ => 0, false⟩

/-- A machine whose iar is 16380, so that iar + 4 = 16384. -/
def envIar16380 : Environment := ⟨16380, fun _ => 0, false⟩

/-- A machine whose iar is 16381. -/
def envIar16381 : Environment := ⟨16381, fun _ => 0, false⟩

/-- A machine whose every word is the invalid opcode 100. -/
def envOp100 : Environment := ⟨0, fun _ => 100, false⟩

/-- Program of the spec's call-and-return scenario: CAL 40 with link 100
at address 0, RET 100 at address 40. -/
def memCalRet : Nat → Int := fun i =>
  if i = 0 then 16 else if i = 1 then 40 else if i = 2 then 100 else
  if i = 40 then 17 else if i = 41 then 100 else 0

/-- The call-and-return machine, starting at 0. -/
def envCalRet : Environment := ⟨0, memCalRet, false⟩

/-- MOV M[0x80000003] := M[0]: the destination word is the i32 reading
0x80000003, namely -2147483645. -/
def memMovHex : Nat → Int := fun i =>
  if i = 0 then 5 else if i = 1 then -2147483645 else 0

/-- The machine writing to the first hex display register. -/
def envMovHex : Environment := ⟨0, memMovHex, false⟩

/-- A bus holding only the hex display device. -/
def daHex : DeviceArray := DeviceArray.empty.register_device hexDisplayFrame

/-- SHL M[4] := M[5] << M[6] with M[5] = 1 and M[6] = 32: a shift by 32. -/
def memShlOverflow : Nat → Int := fun i =>
  if i = 0 then 9 else if i = 1 then 4 else if i = 2 then 5 else
  if i = 3 then 6 else if i = 5 then 1 else if i = 6 then 32 else 0

/-- The machine about to shift left by 32. -/
def envShlOverflow : Environment := ⟨0, memShlOverflow, false⟩

/-- SHR M[4] := M[5] >> M[6] with M[5] = -8 and M[6] = 1. -/
def memShrNeg : Nat → Int := fun i =>
  if i = 0 then 10 else if i = 1 then 4 else if i = 2 then 5 else
  if i = 3 then 6 else if i = 5 then -8 else if i = 6 then 1 else 0

/-- The machine about to arithmetic-shift -8 right by 1. -/
def envShrNeg : Environment := ⟨0, memShrNeg, false⟩

/-- A first device claiming address 100000, answering 1 on reads. -/
def deviceA : DeviceFrame := ⟨[100000], fun _ _ => .ok false, fun _ => .ok 1⟩

/-- A second device claiming the same address 100000, answering 2. -/
def deviceB : DeviceFrame := ⟨[100000], fun _ _ => .ok true, fun _ => .ok 2⟩

/-- The fresh VGA device switched to read mode and not busy. -/
def vgaReadMode : VgaDevice := { VgaDevice.new with write_mode := false }

/-! Basic evaluation lemmas for the embedding. -/

lemma asUsize_natCast (n : Nat) (h : n < 2 ^ 64) : asUsize (n : Int) = n := by
  unfold asUsize
  rw [Int.emod_eq_of_lt (by positivity) (by exact_mod_cast h)]
  simp

lemma getArg_local (addr : Nat) (env : Environment) (da : DeviceArray)
    (h : addr < MEMORY_SIZE) : getArg addr env da = .ok (env.memory addr) := by
  unfold getArg get_mem
  rw [if_neg (by omega)]

lemma setArg_local (addr : Nat) (v : Int) (env : Environment) (da : DeviceArray)
    (h : addr < MEMORY_SIZE) :
    setArg addr v env da =
      .ok { env with memory := writeMem env.memory addr v } := by
  unfold setArg set_mem
  rw [if_neg (by omega)]

/-- A step of a poisoned environment is the AlreadyPoisoned fatal, with
the environment untouched (core.rs lines 67-69). -/
lemma step_poisoned (env : Environment) (da : DeviceArray)
    (hp : env.poison = true) :
    step env da = some (.error .AlreadyPoisoned, env) := by
  simp [step, hp]

/-- A step with the instruction address too close to the end of memory is
the InvalidIAR fatal (core.rs lines 74-78). -/
lemma step_invalid_iar (env : Environment) (da : DeviceArray)
    (hp : env.poison = false) (hiar : MEMORY_SIZE - 4 ≤ env.iar) :
    step env da = some (.error (.InvalidIAR env.iar), { env with poison := true }) := by
  simp [step, hp, hiar]

/-- The shapes a fatal produced inside the instruction dispatch can take:
never AlreadyPoisoned, never InvalidIAR. -/
def dispatchFatal (f : StepFatal) : Prop :=
  (∃ a, f = .InvalidIndex a) ∨ (∃ e, f = .DeviceFailure e) ∨
    f = .DivisionByZero ∨ ∃ op, f = .InvalidInstruction op

lemma getArg_error_shape (addr : Nat) (env : Environment) (da : DeviceArray)
    (f : StepFatal) (h : getArg addr env da = .error f) : dispatchFatal f := by
  unfold getArg at h
  split at h
  · simp at h
    exact Or.inl ⟨_, h.symm⟩
  · simp at h
    exact Or.inr (Or.inl ⟨_, h.symm⟩)
  · simp at h

lemma setArg_error_shape (addr : Nat) (v : Int) (env : Environment)
    (da : DeviceArray) (f : StepFatal) (h : setArg addr v env da = .error f) :
    dispatchFatal f := by
  unfold setArg at h
  split at h
  · simp at h
    exact Or.inl ⟨_, h.symm⟩
  · simp at h
    exact Or.inr (Or.inl ⟨_, h.symm⟩)
  · simp at h

lemma binOpVal_error_shape (i a b : Int) (f : StepFatal)
    (h : binOpVal i a b = some (.error f)) : dispatchFatal f := by
  unfold binOpVal at h
  repeat' split at h
  all_goals simp_all
  exact Or.inr (Or.inr (Or.inl h.symm))

/-- Every fatal produced past the iar check carries the poisoned
environment unchanged otherwise, and is one of the dispatch shapes. -/
lemma step_err_chain (env : Environment) (da : DeviceArray) (f : StepFatal)
    (env' : Environment) (hp : env.poison = false)
    (hiar : ¬ MEMORY_SIZE - 4 ≤ env.iar)
    (h : step env da = some (.error f, env')) :
    env' = { env with poison := true } ∧ dispatchFatal f := by
  simp only [step, hp] at h
  rw [if_neg (by simp), if_neg hiar] at h
  repeat' split at h
  all_goals try simp at h
  all_goals obtain ⟨hf, henv⟩ := h
  all_goals subst hf
  all_goals refine ⟨henv.symm, ?_⟩
  all_goals try exact Or.inr (Or.inr (Or.inr ⟨_, rfl⟩))
  all_goals rename_i f0 heq
  all_goals
    first
    | exact getArg_error_shape _ _ _ _ heq
    | exact setArg_error_shape _ _ _ _ _ heq
    | exact binOpVal_error_shape _ _ _ _ heq

/-- Pointwise update hits the written address. -/
lemma writeMem_at (m : Nat → Int) (a : Nat) (v : Int) : writeMem m a v a = v := by
  simp [writeMem]

/-- Pointwise update leaves other addresses alone. -/
lemma writeMem_other (m : Nat → Int) (a : Nat) (v : Int) (i : Nat)
    (h : i ≠ a) : writeMem m a v i = m i := by
  simp [writeMem, h]

/-- Once the parse loop still has an in-range index but enough captures
left to run past the end of memory, and every remaining capture parsed,
it ends in the out-of-bounds panic. -/
lemma parseWords_none (l : List (Option Int)) : ∀ (i : Nat) (mem : Nat → Int),
    (∀ v ∈ l, v.isSome) → MEMORY_SIZE < i + l.length → i ≤ MEMORY_SIZE →
    parseWords i l mem = none := by
  induction l with
  | nil =>
    intro i mem _ h1 h2
    simp at h1
    omega
  | cons v rest ih =>
    intro i mem hall h1 h2
    obtain ⟨w, hw⟩ := Option.isSome_iff_exists.mp (hall v (by simp))
    subst hw
    simp only [parseWords]
    by_cases hi : i < MEMORY_SIZE
    · rw [if_pos hi]
      exact ih (i + 1) _ (fun u hu => hall u (by simp [hu]))
        (by simp at h1 ⊢; omega) (by omega)
    · rw [if_neg hi]

/-- The element just after a list's length in a two-element extension. -/
lemma getElem_append_pair {A : Type} (l : List A) (a b : A)
    (h : l.length + 1 < (l ++ [a, b]).length) :
    (l ++ [a, b])[l.length + 1] = b := by
  rw [List.getElem_append_right (by omega)]
  simp

/-! Theorems for the claims. -/

/-- C1 (code bug): on the halt-at-zero machine (memory [0,0,0,0] at 0,
iar 0, poison clear) a step does not produce the Halted fatal the spec
promises: opcode 0 has no arm in step's match (core.rs lines 96-248), so
it falls through to the wildcard and yields InvalidInstruction with
instr 0.  The iar stays 0 and poison stays true, as the claim says, but
the fatal is the wrong variant; the StepFatal::Halted variant is declared
(core.rs line 8) yet constructed nowhere in the repository. -/
theorem c1_hlt_opcode_is_invalid_instruction :
    step envHalt DeviceArray.empty =
      some (.error (.InvalidInstruction 0), { envHalt with poison := true }) := rfl

/-- C2 counterexample: a non-poisoned step starting at iar = 16380 (so
iar + 4 = 16384) does fail with InvalidIAR, refuting the claim that it
does not. -/
theorem c2_counterexample :
    step envIar16380 DeviceArray.empty =
      some (.error (.InvalidIAR 16380), { envIar16380 with poison := true }) := rfl

/-- C2 (amended): for every non-poisoned environment, step returns the
Fatal InvalidIAR exactly when iar + 4 >= 16384, i.e. when
iar >= MEMORY_SIZE - 4 (core.rs line 74); in particular a step starting
at iar = 16380 fails with InvalidIAR. -/
theorem c2_invalid_iar_threshold (env : Environment) (da : DeviceArray)
    (hp : env.poison = false) :
    (MEMORY_SIZE - 4 ≤ env.iar →
      step env da =
        some (.error (.InvalidIAR env.iar), { env with poison := true })) ∧
    (env.iar < MEMORY_SIZE - 4 →
      ∀ i env', step env da ≠ some (.error (.InvalidIAR i), env')) := by
  constructor
  · intro hiar
    exact step_invalid_iar env da hp hiar
  · intro hlt i env' hc
    obtain ⟨-, hshape⟩ := step_err_chain env da _ _ hp (by omega) hc
    rcases hshape with ⟨a, ha⟩ | ⟨e, he⟩ | hd | ⟨op, hop⟩ <;> simp_all

/-- C2 witness: the threshold theorem applied at iar = 16381. -/
theorem c2_invalid_iar_threshold_witness :
    step envIar16381 DeviceArray.empty =
      some (.error (.InvalidIAR 16381), { envIar16381 with poison := true }) :=
  (c2_invalid_iar_threshold envIar16381 DeviceArray.empty rfl).1
    (by norm_num [MEMORY_SIZE, envIar16381])

/-- C3 (code bug): a successful step whose single write goes to a device
that reports redraw = true (the hex display, whose set returns Ok(true),
onboard.rs line 34) still returns a report holding nothing but the
changed address: StepReport (core.rs lines 19-22) has no redraw field and
set_mem (core.rs lines 271-283) discards the device's verdict, so no
successful step can carry the redraw flag the claim and executor.rs line
69 expect.  The changed address 2^64 - 2147483645 is the sign-extended
usize reading of the destination word 0x80000003. -/
theorem c3_redraw_field_missing :
    step envMovHex daHex =
      some (.ok ⟨some (2 ^ 64 - 2147483645)⟩, { envMovHex with iar := 4 }) := rfl

/-- C4: for every environment fetching an opcode outside 0..=17 (with
poison clear and a valid iar, so that the fetch happens), and any device
bus, step returns InvalidInstruction carrying the opcode and leaves the
environment unchanged except for poison, which stays true. -/
theorem c4_invalid_opcode_rejected (env : Environment) (da : DeviceArray)
    (op : Int) (hp : env.poison = false) (hiar : env.iar < MEMORY_SIZE - 4)
    (hop : env.memory env.iar = op) (hrange : op < 0 ∨ 17 < op) :
    step env da =
      some (.error (.InvalidInstruction op), { env with poison := true }) := by
  simp only [step, hp, hop]
  rw [if_neg (by simp), if_neg (by omega), if_neg (by omega), if_neg (by omega),
    if_neg (by omega), if_neg (by omega), if_neg (by omega), if_neg (by omega)]

/-- C4 witness: opcode 100 at address 0. -/
theorem c4_invalid_opcode_rejected_witness :
    step envOp100 DeviceArray.empty =
      some (.error (.InvalidInstruction 100), { envOp100 with poison := true }) :=
  c4_invalid_opcode_rejected envOp100 DeviceArray.empty 100 rfl
    (by norm_num [MEMORY_SIZE, envOp100]) rfl (by norm_num)

/-- C5: every step that returns a Fatal leaves poison set, and a step of
a poisoned environment (under any bus) returns AlreadyPoisoned with the
environment unchanged — so subsequent steps keep returning
AlreadyPoisoned, with memory, iar and poison untouched, until poison is
cleared externally. -/
theorem c5_poison_round_trip (env : Environment) (da da2 : DeviceArray)
    (f : StepFatal) (env' : Environment)
    (h : step env da = some (.error f, env')) :
    env'.poison = true ∧
      step env' da2 = some (.error .AlreadyPoisoned, env') := by
  have hpois : env'.poison = true := by
    by_cases hp : env.poison
    · rw [step_poisoned env da hp] at h
      simp at h
      rw [← h.2]
      exact hp
    · have hp' : env.poison = false := by simpa using hp
      by_cases hiar : MEMORY_SIZE - 4 ≤ env.iar
      · rw [step_invalid_iar env da hp' hiar] at h
        simp at h
        rw [← h.2]
      · obtain ⟨he, -⟩ := step_err_chain env da f env' hp' hiar h
        rw [he]
  exact ⟨hpois, step_poisoned env' da2 hpois⟩

/-- C5 witness: after the halt-at-zero fatal the environment is poisoned
and a further step is AlreadyPoisoned. -/
theorem c5_poison_round_trip_witness :
    ({ envHalt with poison := true } : Environment).poison = true ∧
      step { envHalt with poison := true } DeviceArray.empty =
        some (.error .AlreadyPoisoned, { envHalt with poison := true }) :=
  c5_poison_round_trip envHalt DeviceArray.empty DeviceArray.empty
    (.InvalidInstruction 0) { envHalt with poison := true } rfl

/-- C6 counterexample: 16385 matches whose values all parse as i32 make
Environment::parse hit the out-of-bounds panic of core.rs line 53
(modelled none) instead of returning an Err, refuting the claim. -/
theorem c6_counterexample :
    Environment.parse (List.replicate 16385 (some 0)) = none := by
  unfold Environment.parse
  rw [parseWords_none _ 0 _ (by intro v hv; simp [List.eq_of_mem_replicate hv])
    (by rw [List.length_replicate]; norm_num [MEMORY_SIZE]) (by omega)]
  rfl

/-- C6 (amended): when the pattern matches more than 16384 times and the
extra captured values parse as i32, Environment::parse panics with an
out-of-bounds index at the 16385th capture; it does not return an Err
(an Err arises only from a capture whose value fails the i32 parse). -/
theorem c6_parse_overflow_panics (captures : List (Option Int))
    (hlen : MEMORY_SIZE < captures.length)
    (hall : ∀ v ∈ captures, v.isSome) :
    Environment.parse captures = none := by
  unfold Environment.parse
  rw [parseWords_none captures 0 _ hall (by omega) (by omega)]
  rfl

/-- C6 witness: 16386 captures of the value 1. -/
theorem c6_parse_overflow_panics_witness :
    Environment.parse (List.replicate 16386 (some 1)) = none :=
  c6_parse_overflow_panics _ (by rw [List.length_replicate]; norm_num [MEMORY_SIZE])
    (by intro v hv; simp [List.eq_of_mem_replicate hv])

/-- C7 counterexample: a commit write of 0 to the VGA in read mode (turn
clear) returns Unwritable, not Dead: the zero check of vga.rs line 52
precedes the mode check of line 55, refuting the claim's
"regardless of the value written". -/
theorem c7_counterexample :
    vgaReadMode.set true 0x80000060 0 = .error .Unwritable := rfl

/-- C7 (amended): a commit write of any non-zero value to the VGA commit
register 0x80000060 while the device is in read mode and not busy returns
Dead, whatever the channel state; a commit write of 0 returns Unwritable
instead, because the zero check runs before the mode check. -/
theorem c7_vga_read_mode_commit_dead (s : VgaDevice) (channelOk : Bool)
    (value : Int) (hturn : s.turn = false) (hmode : s.write_mode = false)
    (hv : value ≠ 0) :
    s.set channelOk 0x80000060 value = .error .Dead := by
  simp [VgaDevice.set, hturn, hmode, hv]

/-- C7 witness: value 7, closed channel. -/
theorem c7_vga_read_mode_commit_dead_witness :
    vgaReadMode.set false 0x80000060 7 = .error .Dead :=
  c7_vga_read_mode_commit_dead vgaReadMode false 7 rfl rfl (by norm_num)

/-- C8: a CAL at p targeting t with link L < 16384, followed by the RET
on the same link at t, stores p + 4 at L and lands on t after the first
step, and restores iar to p + 4 (the instruction after the CAL) after the
second, provided the link cell does not overlap the RET instruction. -/
theorem c8_cal_ret_round_trip (env : Environment) (da : DeviceArray)
    (p t L : Nat) (hp : env.poison = false) (hiarp : env.iar = p)
    (hpv : p < MEMORY_SIZE - 4) (htv : t < MEMORY_SIZE - 4)
    (hLv : L < MEMORY_SIZE)
    (hm0 : env.memory p = 16) (hm1 : env.memory (p + 1) = (t : Int))
    (hm2 : env.memory (p + 2) = (L : Int))
    (ht0 : env.memory t = 17) (ht1 : env.memory (t + 1) = (L : Int))
    (hLt : L ≠ t) (hLt1 : L ≠ t + 1) :
    step env da = some (.ok ⟨none⟩,
      ⟨t, writeMem env.memory L ((p + 4 : Nat) : Int), false⟩) ∧
    writeMem env.memory L ((p + 4 : Nat) : Int) L = ((p : Int) + 4) ∧
    step (⟨t, writeMem env.memory L ((p + 4 : Nat) : Int), false⟩ : Environment)
        da =
      some (.ok ⟨none⟩,
        ⟨p + 4, writeMem env.memory L ((p + 4 : Nat) : Int), false⟩) := by
  have hL16 : L < 16384 := by simpa [MEMORY_SIZE] using hLv
  have hp16 : p < 16380 := by simpa [MEMORY_SIZE] using hpv
  have ht16 : t < 16380 := by simpa [MEMORY_SIZE] using htv
  have h1 : step env da = some (.ok ⟨none⟩,
      ⟨t, writeMem env.memory L ((p + 4 : Nat) : Int), false⟩) := by
    simp only [step, hp, hiarp, hm0, hm1, hm2]
    rw [if_neg (by simp), if_neg (by omega), if_neg (by norm_num),
      if_neg (by norm_num), if_neg (by norm_num), if_neg (by norm_num),
      if_pos trivial]
    rw [asUsize_natCast L (by omega), asUsize_natCast t (by omega),
      setArg_local L _ _ _ hLv]
  have hM0 : writeMem env.memory L ((p + 4 : Nat) : Int) t = 17 := by
    rw [writeMem_other _ _ _ _ (Ne.symm hLt)]
    exact ht0
  have hM1 : writeMem env.memory L ((p + 4 : Nat) : Int) (t + 1) = (L : Int) := by
    rw [writeMem_other _ _ _ _ (Ne.symm hLt1)]
    exact ht1
  have h2 : step ⟨t, writeMem env.memory L ((p + 4 : Nat) : Int), false⟩ da =
      some (.ok ⟨none⟩,
        ⟨p + 4, writeMem env.memory L ((p + 4 : Nat) : Int), false⟩) := by
    simp only [step, hM0, hM1]
    rw [if_neg (by simp), if_neg (by omega), if_neg (by norm_num),
      if_neg (by norm_num), if_neg (by norm_num), if_neg (by norm_num),
      if_neg (by norm_num), if_pos trivial]
    rw [asUsize_natCast L (by omega), getArg_local L _ _ hLv]
    simp only [writeMem_at]
    rw [asUsize_natCast (p + 4) (by omega)]
  refine ⟨h1, ?_, h2⟩
  simp only [writeMem_at]
  push_cast
  ring

/-- C8 witness: the spec's call-and-return scenario, CAL 40 link 100 at
0 and RET 100 at 40. -/
theorem c8_cal_ret_round_trip_witness :
    step envCalRet DeviceArray.empty =
      some (.ok ⟨none⟩, ⟨40, writeMem memCalRet 100 4, false⟩) ∧
    writeMem memCalRet 100 4 100 = 4 ∧
    step (⟨40, writeMem memCalRet 100 4, false⟩ : Environment)
        DeviceArray.empty =
      some (.ok ⟨none⟩, ⟨4, writeMem memCalRet 100 4, false⟩) :=
  c8_cal_ret_round_trip envCalRet DeviceArray.empty 0 40 100 rfl rfl
    (by norm_num [MEMORY_SIZE]) (by norm_num [MEMORY_SIZE])
    (by norm_num [MEMORY_SIZE]) rfl rfl rfl rfl rfl
    (by norm_num) (by norm_num)

/-- C9: registering a device whose claimed set overlaps an address
already claimed by an earlier device neither panics nor rejects the
registration (register_device is total, devices.rs lines 14-21); the
HashMap extend overwrites the overlapped key, so both reads and writes at
that address are routed to the most recently registered device. -/
theorem c9_overlap_routes_to_newest (da : DeviceArray) (d1 d2 : DeviceFrame)
    (addr : Nat) (value : Int) (hover : addr ∈ d1.registers)
    (hclaim : addr ∈ d2.registers) (h32 : addr < 2 ^ 32) :
    ((da.register_device d1).register_device d2).get addr =
      some (d2.get addr) ∧
    ((da.register_device d1).register_device d2).set addr value =
      some (d2.set addr value) := by
  constructor
  · simp [DeviceArray.get, DeviceArray.register_device, hclaim]
    rw [getElem_append_pair]
  · have h32m : addr % 4294967296 = addr := Nat.mod_eq_of_lt (by omega)
    simp [DeviceArray.set, DeviceArray.register_device, h32m, hclaim]
    rw [getElem_append_pair]

/-- C9 witness: two devices both claiming address 100000; calls land on
the second. -/
theorem c9_overlap_routes_to_newest_witness :
    ((DeviceArray.empty.register_device deviceA).register_device
        deviceB).get 100000 = some (.ok 2) ∧
      ((DeviceArray.empty.register_device deviceA).register_device
        deviceB).set 100000 5 = some (.ok true) := by
  have h := c9_overlap_routes_to_newest DeviceArray.empty deviceA deviceB
    100000 5 (by simp [deviceA]) (by simp [deviceB]) (by norm_num)
  simpa [deviceA, deviceB] using h

/-- C10: the shifts of SHL and SHR (ops 9 and 10) are unguarded (core.rs
lines 123-124): with local operands, a shift amount that is negative or
at least 32 makes step panic (modelled none) rather than return a value
or a Fatal; under the precondition 0 <= M[a3] < 32 both shifts are
defined, SHR writing the arithmetic (sign-preserving) shift, i.e. the
floor division of M[a2] by 2^M[a3], and SHL the wrapped product. -/
theorem c10_shift_partiality :
    (∀ (env : Environment) (da : DeviceArray) (a1 a2 a3 : Nat) (s : Int),
      env.poison = false → env.iar < MEMORY_SIZE - 4 →
      (env.memory env.iar = 9 ∨ env.memory env.iar = 10) →
      env.memory (env.iar + 1) = (a1 : Int) →
      env.memory (env.iar + 2) = (a2 : Int) → a2 < MEMORY_SIZE →
      env.memory (env.iar + 3) = (a3 : Int) → a3 < MEMORY_SIZE →
      env.memory a3 = s → (s < 0 ∨ 32 ≤ s) →
      step env da = none) ∧
    (∀ (env : Environment) (da : DeviceArray) (a1 a2 a3 s : Nat),
      env.poison = false → env.iar < MEMORY_SIZE - 4 →
      env.memory env.iar = 10 →
      env.memory (env.iar + 1) = (a1 : Int) → a1 < MEMORY_SIZE →
      env.memory (env.iar + 2) = (a2 : Int) → a2 < MEMORY_SIZE →
      env.memory (env.iar + 3) = (a3 : Int) → a3 < MEMORY_SIZE →
      env.memory a3 = (s : Int) → s < 32 →
      step env da = some (.ok ⟨some a1⟩,
        { env with
            memory := writeMem env.memory a1 ((env.memory a2).fdiv (2 ^ s))
            iar := env.iar + 4
            poison := false })) ∧
    (∀ (env : Environment) (da : DeviceArray) (a1 a2 a3 s : Nat),
      env.poison = false → env.iar < MEMORY_SIZE - 4 →
      env.memory env.iar = 9 →
      env.memory (env.iar + 1) = (a1 : Int) → a1 < MEMORY_SIZE →
      env.memory (env.iar + 2) = (a2 : Int) → a2 < MEMORY_SIZE →
      env.memory (env.iar + 3) = (a3 : Int) → a3 < MEMORY_SIZE →
      env.memory a3 = (s : Int) → s < 32 →
      step env da = some (.ok ⟨some a1⟩,
        { env with
            memory := writeMem env.memory a1 (wrap32 (env.memory a2 * 2 ^ s))
            iar := env.iar + 4
            poison := false })) := by
  refine ⟨?_, ?_, ?_⟩
  · intro env da a1 a2 a3 s hp hiar hop h1 h2 ha2 h3 ha3 hs hsbad
    have ha2L : a2 < 16384 := by simpa [MEMORY_SIZE] using ha2
    have ha3L : a3 < 16384 := by simpa [MEMORY_SIZE] using ha3
    rcases hop with hop | hop
    · simp only [step, hp, hop, h1, h2, h3]
      rw [if_neg (by simp), if_neg (by omega), if_pos (by norm_num)]
      rw [asUsize_natCast a2 (by omega), asUsize_natCast a3 (by omega),
        getArg_local a2 _ _ (by omega), getArg_local a3 _ _ (by omega)]
      simp only [hs, binOpVal]
      rw [if_neg (by norm_num), if_neg (by norm_num), if_neg (by norm_num),
        if_neg (by norm_num), if_neg (by norm_num), if_neg (by norm_num),
        if_pos (by norm_num)]
      rw [shlChecked, if_neg (by omega)]
      rfl
    · simp only [step, hp, hop, h1, h2, h3]
      rw [if_neg (by simp), if_neg (by omega), if_pos (by norm_num)]
      rw [asUsize_natCast a2 (by omega), asUsize_natCast a3 (by omega),
        getArg_local a2 _ _ (by omega), getArg_local a3 _ _ (by omega)]
      simp only [hs, binOpVal]
      rw [if_neg (by norm_num), if_neg (by norm_num), if_neg (by norm_num),
        if_neg (by norm_num), if_neg (by norm_num), if_neg (by norm_num),
        if_neg (by norm_num)]
      rw [shrChecked, if_neg (by omega)]
      rfl
  · intro env da a1 a2 a3 s hp hiar hop h1 ha1 h2 ha2 h3 ha3 hs hs32
    have ha1L : a1 < 16384 := by simpa [MEMORY_SIZE] using ha1
    have ha2L : a2 < 16384 := by simpa [MEMORY_SIZE] using ha2
    have ha3L : a3 < 16384 := by simpa [MEMORY_SIZE] using ha3
    simp only [step, hp, hop, h1, h2, h3]
    rw [if_neg (by simp), if_neg (by omega), if_pos (by norm_num)]
    rw [asUsize_natCast a2 (by omega), asUsize_natCast a3 (by omega),
      getArg_local a2 _ _ (by omega), getArg_local a3 _ _ (by omega)]
    simp only [hs, binOpVal]
    rw [if_neg (by norm_num), if_neg (by norm_num), if_neg (by norm_num),
      if_neg (by norm_num), if_neg (by norm_num), if_neg (by norm_num),
      if_neg (by norm_num)]
    rw [shrChecked, if_pos (by constructor <;> [positivity; exact_mod_cast hs32])]
    simp only [Option.map_some']
    rw [asUsize_natCast a1 (by omega), setArg_local a1 _ _ _ (by omega)]
    simp only [Int.toNat_natCast]
  · intro env da a1 a2 a3 s hp hiar hop h1 ha1 h2 ha2 h3 ha3 hs hs32
    have ha1L : a1 < 16384 := by simpa [MEMORY_SIZE] using ha1
    have ha2L : a2 < 16384 := by simpa [MEMORY_SIZE] using ha2
    have ha3L : a3 < 16384 := by simpa [MEMORY_SIZE] using ha3
    simp only [step, hp, hop, h1, h2, h3]
    rw [if_neg (by simp), if_neg (by omega), if_pos (by norm_num)]
    rw [asUsize_natCast a2 (by omega), asUsize_natCast a3 (by omega),
      getArg_local a2 _ _ (by omega), getArg_local a3 _ _ (by omega)]
    simp only [hs, binOpVal]
    rw [if_neg (by norm_num), if_neg (by norm_num), if_neg (by norm_num),
      if_neg (by norm_num), if_neg (by norm_num), if_neg (by norm_num),
      if_pos (by norm_num)]
    rw [shlChecked, if_pos (by constructor <;> [positivity; exact_mod_cast hs32])]
    simp only [Option.map_some']
    rw [asUsize_natCast a1 (by omega), setArg_local a1 _ _ _ (by omega)]
    simp only [Int.toNat_natCast]

/-- C10 witness: a left shift by 32 panics; -8 >> 1 is -4. -/
theorem c10_shift_partiality_witness :
    step envShlOverflow DeviceArray.empty = none ∧
      step envShrNeg DeviceArray.empty =
        some (.ok ⟨some 4⟩, ⟨4, writeMem memShrNeg 4 (-4), false⟩) :=
  ⟨c10_shift_partiality.1 envShlOverflow DeviceArray.empty 4 5 6 32 rfl
      (by norm_num [MEMORY_SIZE, envShlOverflow]) (Or.inl rfl) rfl rfl
      (by norm_num [MEMORY_SIZE]) rfl (by norm_num [MEMORY_SIZE]) rfl
      (by norm_num),
    c10_shift_partiality.2.1 envShrNeg DeviceArray.empty 4 5 6 1 rfl
      (by norm_num [MEMORY_SIZE, envShrNeg]) rfl rfl
      (by norm_num [MEMORY_SIZE]) rfl (by norm_num [MEMORY_SIZE]) rfl
      (by norm_num [MEMORY_SIZE]) rfl (by norm_num)⟩

end Case100

